import Mathlib

/-!
Verification development for the sensor middleware core specified by this
repository's spec (device/sensor capability-and-streaming registry), together
with a shallow embedding of the repository's driver program
`examples/sensor-control/rs-sensor-control.cpp`.

The repository ships only the example `main` (a caller of the core's public
interface); the core registry/session layer itself is not among the source
files, so its operations are modelled from the spec (each such definition is
marked `Modelled from the spec:`). The per-sensor block of `main` is embedded
from the source file directly (`processSensor` below).
-/

namespace SensorCore

/-- Modelled from the spec: the error kinds of §7 (the core's Session and
OptionStore operations report these; none are recovered internally). The core
implementation is missing from the sources, only its spec describes it. -/
inductive ErrKind where
  | UnsupportedOption
  | InvalidRange
  | NotStreamable
  | AlreadyOpen
  | DeviceBusy
  | InvalidProfile
  | InvalidState
  | AlreadyStreaming
  | BackendFailure
deriving DecidableEq, Repr

instance {ε α : Type} [DecidableEq ε] [DecidableEq α] : DecidableEq (Except ε α) := fun a b =>
  match a, b with
  | .ok x, .ok y => if h : x = y then .isTrue (by rw [h]) else .isFalse (by simp [h])
  | .error x, .error y => if h : x = y then .isTrue (by rw [h]) else .isFalse (by simp [h])
  | .ok _, .error _ => .isFalse (by simp)
  | .error _, .ok _ => .isFalse (by simp)

/-- Modelled from the spec: the Sensor Session states of §4.3
(`Closed → Opened → Streaming → Opened → Closed`). -/
inductive SessionState where
  | Closed
  | Opened
  | Streaming
deriving DecidableEq, Repr

/-- Modelled from the spec: the stream-profile kind discriminator of §4.2
(profile kind ∈ \x7bvideo, motion, pose, other\x7d). -/
inductive StreamKind where
  | video
  | motion
  | pose
  | other
deriving DecidableEq, Repr

/-- Modelled from the spec: the video-kind attribute struct of §4.2 / §3
(\x7bwidth, height, frame-rate, pixel-format\x7d); the pixel format is kept as a
numeric code. -/
structure VideoAttributes where
  width : Nat
  height : Nat
  fps : Nat
  format : Nat
deriving DecidableEq, Repr

/-- Modelled from the spec: the kind-indexed attribute variant of §9 — the
kind discriminator together with its kind-specific attribute struct, resolved
at construction time (no runtime cast). -/
inductive ProfileAttrs where
  | videoA (a : VideoAttributes)
  | motionA
  | poseA
  | otherA
deriving DecidableEq, Repr

/-- Modelled from the spec: a StreamProfile of §3 — (stream-kind via `attrs`,
stream-index, unique-id, human-readable name, kind-specific attributes as a
tagged variant). -/
structure StreamProfile where
  uniqueId : Nat
  streamIndex : Nat
  name : String
  attrs : ProfileAttrs
deriving DecidableEq, Repr

/-- The kind discriminator of a profile: a pure function of the tagged
variant fixed at construction, never a runtime cast. -/
def StreamProfile.kind (p : StreamProfile) : StreamKind :=
  match p.attrs with
  | .videoA _ => .video
  | .motionA => .motion
  | .poseA => .pose
  | .otherA => .other

/-- Modelled from the spec: the capability-narrowing query `as_video` of §4.2 —
returns populated attributes only for profiles that are video-kind. -/
def StreamProfile.asVideo (p : StreamProfile) : Option VideoAttributes :=
  match p.attrs with
  | .videoA a => some a
  | _ => none

/-- Modelled from the spec: an option range \x7bmin, max, default, step\x7d (§3,
§4.1). Values are modelled as integers. -/
structure OptRange where
  min : Int
  max : Int
  dflt : Int
  step : Int
deriving DecidableEq, Repr

/-- A value is valid for a range when it lies in [min, max] and is aligned to
the step (§4.1: `InvalidRange` = value outside [min,max] or misaligned to
step). A zero step imposes no alignment constraint. -/
def OptRange.validValue (r : OptRange) (v : Int) : Bool :=
  r.min ≤ v && v ≤ r.max && (r.step == 0 || (v - r.min) % r.step == 0)

/-- Modelled from the spec: the sensor-specific, queryable mutation policy of
§4.1 — an option may be mutable anytime, only while the Session is
`Streaming`, or only while it is not streaming. -/
inductive MutPolicy where
  | anytime
  | onlyWhileStreaming
  | onlyWhileStopped
deriving DecidableEq, Repr

/-- Whether the policy permits mutation in the given Session state. -/
def MutPolicy.allows : MutPolicy → SessionState → Bool
  | .anytime, _ => true
  | .onlyWhileStreaming, st => st == .Streaming
  | .onlyWhileStopped, st => st != .Streaming

/-- Modelled from the spec: a supported option's entry in the OptionStore —
current value, range, and mutation policy (§3, §4.1). -/
structure OptInfo where
  value : Int
  range : OptRange
  policy : MutPolicy
deriving DecidableEq, Repr

/-- Modelled from the spec: the OptionStore of §4.1 — a typed, ranged,
per-sensor configuration key/value store; `find` yields the entry of a
supported option kind and `none` for unsupported kinds. -/
structure OptionStore where
  find : Nat → Option OptInfo

namespace OptionStore

/-- Modelled from the spec: `supports(kind) -> bool` (§4.1). -/
def supports (os : OptionStore) (k : Nat) : Bool :=
  (os.find k).isSome

/-- Modelled from the spec: `get(kind) -> value`, failing with
`UnsupportedOption` if not supported (§4.1). -/
def get (os : OptionStore) (k : Nat) : Except ErrKind Int :=
  match os.find k with
  | some i => .ok i.value
  | none => .error .UnsupportedOption

/-- Modelled from the spec: `range(kind) -> \x7bmin, max, default, step\x7d`
(§4.1). -/
def getRange (os : OptionStore) (k : Nat) : Except ErrKind OptRange :=
  match os.find k with
  | some i => .ok i.range
  | none => .error .UnsupportedOption

/-- Modelled from the spec: the queryable per-option mutation policy (§4.1:
"policy is sensor-specific and must be queryable, not hard-coded"). -/
def getPolicy (os : OptionStore) (k : Nat) : Except ErrKind MutPolicy :=
  match os.find k with
  | some i => .ok i.policy
  | none => .error .UnsupportedOption

/-- Modelled from the spec: `set(kind, value)` (§4.1). Fails with
`UnsupportedOption` for unsupported kinds, `InvalidRange` for a value outside
[min,max] or misaligned to step, and `NotStreamable` when the current Session
state is excluded by the option's mutation policy. The store is returned
unchanged on every failure (atomic failure, §4.1). -/
def set (os : OptionStore) (k : Nat) (v : Int) (st : SessionState) :
    Except ErrKind Unit × OptionStore :=
  match os.find k with
  | none => (.error .UnsupportedOption, os)
  | some i =>
    if ¬ i.range.validValue v then (.error .InvalidRange, os)
    else if ¬ i.policy.allows st then (.error .NotStreamable, os)
    else (.ok (), ⟨fun x => if x = k then some { i with value := v } else os.find x⟩)

end OptionStore

/-- Modelled from the spec: the Sensor Session of §4.3 — the state machine
guarding exclusive hardware access and callback lifetime. `callbacks` are the
currently registered active callbacks (identified by numeric handles);
`hwLock` records whether this session holds exclusive hardware access. -/
structure Session where
  state : SessionState
  openedProfiles : List StreamProfile
  callbacks : List Nat
  hwLock : Bool
deriving DecidableEq, Repr

namespace Session

/-- A fresh session: `Closed`, nothing opened, no callback, no lock. -/
def init : Session := ⟨.Closed, [], [], false⟩

/-- Modelled from the spec: `open(profile_or_set_of_profiles)` (§4.3) — takes
the set of profiles to open (a single profile is the singleton list); valid
only from `Closed` (`AlreadyOpen` otherwise); `InvalidProfile` if some profile
of the set was not produced by this Sensor's Catalog `cat`; `DeviceBusy` if
another process or session holds the exclusive resource (`extBusy`); on
success acquires exclusive hardware access for the given profiles and moves
to `Opened`. -/
def openOn (s : Session) (ps : List StreamProfile) (cat : List StreamProfile)
    (extBusy : Bool) : Except ErrKind Unit × Session :=
  if s.state ≠ .Closed then (.error .AlreadyOpen, s)
  else if ¬ (∀ q ∈ ps, q ∈ cat) then (.error .InvalidProfile, s)
  else if extBusy then (.error .DeviceBusy, s)
  else (.ok (), ⟨.Opened, ps, [], true⟩)

/-- Modelled from the spec: `start(callback)` (§4.3) — valid only from
`Opened`, where it registers exactly one callback and moves to `Streaming`;
a second `start` before `stop` fails with `AlreadyStreaming`; `start` from
`Closed` fails with `InvalidState`. Failures leave the session unchanged. -/
def start (s : Session) (cb : Nat) : Except ErrKind Unit × Session :=
  match s.state with
  | .Opened => (.ok (), { s with state := .Streaming, callbacks := [cb] })
  | .Streaming => (.error .AlreadyStreaming, s)
  | .Closed => (.error .InvalidState, s)

/-- Modelled from the spec: `stop()` (§4.3) — valid from `Streaming`,
transitions to `Opened` and deregisters the callback; `InvalidState`
otherwise, leaving the session unchanged. -/
def stop (s : Session) : Except ErrKind Unit × Session :=
  if s.state = .Streaming then (.ok (), { s with state := .Opened, callbacks := [] })
  else (.error .InvalidState, s)

/-- Modelled from the spec: `close()` (§4.3) — valid from `Opened`, releases
exclusive hardware access and returns to `Closed`; calling `close` from
`Streaming` (or `Closed`) fails with `InvalidState`, leaving the session
unchanged. -/
def close (s : Session) : Except ErrKind Unit × Session :=
  if s.state = .Opened then (.ok (), ⟨.Closed, [], [], false⟩)
  else (.error .InvalidState, s)

end Session

/-- Modelled from the spec: the observable events of a Sensor Session's life
(§4.3, §5) — the four state-machine operations plus the asynchronous delivery
of one frame of the stream with the given unique id to the registered
callback. -/
inductive Ev where
  | evOpen (ps : List StreamProfile)
  | evStart (cb : Nat)
  | evStop
  | evClose
  | evDeliver (sid : Nat)
deriving DecidableEq, Repr

/-- Modelled from the spec: the streaming system around one Sensor Session —
the session, the per-stream next sequence number (§3: frames carry a
monotonically increasing per-stream sequence number), and the ordered list of
(stream unique id, sequence number) pairs already delivered to the callback. -/
structure SensorSys where
  sess : Session
  counters : Nat → Nat
  delivered : List (Nat × Nat)

/-- A fresh streaming system: fresh session, all sequence counters at zero,
nothing delivered. -/
def SensorSys.initSys : SensorSys := ⟨Session.init, fun _ => 0, []⟩

/-- Modelled from the spec: one step of the streaming system over catalog
`cat`. Operation events apply the corresponding Session operation (a failing
operation leaves the session unchanged, §7); a delivery event can occur only
while the session is `Streaming` and only for an opened profile's stream
(§4.3: frames matching any opened profile are delivered until `stop`; §5:
delivery contexts interleave without any cross-stream ordering), and it tags
the frame with the stream's next sequence number. -/
def stepEv (cat : List StreamProfile) (w : SensorSys) (e : Ev) : Option SensorSys :=
  match e with
  | .evOpen ps => some { w with sess := (w.sess.openOn ps cat false).2 }
  | .evStart cb => some { w with sess := (w.sess.start cb).2 }
  | .evStop => some { w with sess := w.sess.stop.2 }
  | .evClose => some { w with sess := w.sess.close.2 }
  | .evDeliver sid =>
    if w.sess.state = .Streaming ∧ sid ∈ w.sess.openedProfiles.map StreamProfile.uniqueId then
      some { w with
             counters := fun x => if x = sid then w.counters sid + 1 else w.counters x,
             delivered := w.delivered ++ [(sid, w.counters sid)] }
    else none

/-- Runs a list of events from a system state; `none` when some event is not
enabled (a delivery while not `Streaming` or for an unopened stream). -/
def runEv (cat : List StreamProfile) : SensorSys → List Ev → Option SensorSys
  | w, [] => some w
  | w, e :: es =>
    match stepEv cat w e with
    | some w' => runEv cat w' es
    | none => none

/-- The sequence numbers of the frames delivered for one stream, in delivery
order. -/
def seqsOf (sid : Nat) (l : List (Nat × Nat)) : List Nat :=
  (l.filter (fun f => f.1 == sid)).map Prod.snd

/-- The sequence-number invariant of the streaming system: for every stream,
the sequence numbers delivered so far are exactly `0, 1, …, counter - 1`. -/
def SeqInv (w : SensorSys) : Prop :=
  ∀ sid, seqsOf sid w.delivered = List.range (w.counters sid)

/-- Modelled from the spec: a Device's identity (§3) — name, serial, firmware
version, each optionally absent. -/
structure DeviceId where
  name : Option String
  serial : Option String
  firmware : Option String
deriving DecidableEq, Repr

/-- Modelled from the spec: the Device Registry of §4.4. The backing driver
layer (external collaborator) is modelled as the sequence of device sets it
would report to successive enumeration queries; `queryCount` counts the
enumeration queries issued to it so far. -/
structure Registry where
  backend : Nat → List DeviceId
  queryCount : Nat

/-- Modelled from the spec: `devices()` (§4.4) — re-issues the enumeration
query to the backing driver layer, exactly once per call and never served
from a cache, and returns the devices as an ordered sequence. -/
def Registry.devices (r : Registry) : List DeviceId × Registry :=
  (r.backend r.queryCount, { r with queryCount := r.queryCount + 1 })

/-- A Session operation attempted by the driver program, for recording which
calls `main` performs on a sensor. -/
inductive SessionOp where
  | opOpen (p : StreamProfile)
  | opStart (cb : Nat)
  | opStop
  | opClose
deriving DecidableEq, Repr

/-- Embeds the per-sensor streaming block of `main` in
`examples/sensor-control/rs-sensor-control.cpp` (lines 179-230): guarded by
`sensor.get_stream_profiles().size() > 0`, it takes the first profile of the
catalog, then calls `open(first_profile)`, `start(lambda)`, and — inside a
try/catch whose exception is swallowed — `start(function pointer)` and
`start(functor)` (the third call is skipped when the second throws), then
`stop()` and `close()`. An error escaping the try/catch aborts the block (the
exception propagates out of `main`). Callbacks are identified by the handles
1, 2, 3 in source order. Returns the operations actually attempted and the
final session. -/
def processSensor (cat : List StreamProfile) (s : Session) : List SessionOp × Session :=
  if h : 0 < cat.length then
    let p := cat.get ⟨0, h⟩
    let r1 := s.openOn [p] cat false
    if r1.1 ≠ .ok () then ([.opOpen p], r1.2)
    else
      let r2 := r1.2.start 1
      if r2.1 ≠ .ok () then ([.opOpen p, .opStart 1], r2.2)
      else
        let r3 := r2.2.start 2
        let tryRes : List SessionOp × Session :=
          if r3.1 = .ok () then
            let r4 := r3.2.start 3
            ([.opStart 2, .opStart 3], r4.2)
          else ([.opStart 2], r3.2)
        let r5 := tryRes.2.stop
        if r5.1 ≠ .ok () then
          ([.opOpen p, .opStart 1] ++ tryRes.1 ++ [.opStop], r5.2)
        else
          let r6 := r5.2.close
          ([.opOpen p, .opStart 1] ++ tryRes.1 ++ [.opStop, .opClose], r6.2)
  else ([], s)

/-- The spec's §8 round-trip scenario: `open(p) → start(cb) → stop() → close()`
on one session, collecting the four results and the final session. -/
def roundTrip (s : Session) (p : StreamProfile) (cat : List StreamProfile) (cb : Nat) :
    List (Except ErrKind Unit) × Session :=
  let w1 := Session.openOn s [p] cat false
  let w2 := Session.start w1.2 cb
  let w3 := Session.stop w2.2
  let w4 := Session.close w3.2
  ([w1.1, w2.1, w3.1, w4.1], w4.2)

/-- A concrete session in state `Opened`, for witnesses. -/
def sOpenedW : Session := ⟨.Opened, [], [], true⟩

/-- A concrete session in state `Streaming`, for witnesses. -/
def sStreamW : Session := ⟨.Streaming, [], [7], true⟩

/-- A concrete video stream profile, for witnesses. -/
def pVid : StreamProfile := ⟨5, 0, "Depth", .videoA ⟨640, 480, 30, 1⟩⟩

/-- A second concrete stream profile of the same sensor (a motion stream with
a distinct unique id), for witnesses that open two profiles at once. -/
def pMot : StreamProfile := ⟨6, 0, "Gyro", .motionA⟩

/-- A concrete store supporting option kind 3 with range
\x7bmin=0, max=100, default=50, step=10\x7d, mutable anytime; for witnesses. -/
def osW : OptionStore :=
  ⟨fun k => if k = 3 then some ⟨30, ⟨0, 100, 50, 10⟩, .anytime⟩ else none⟩

/-- A concrete store supporting option kind 4 with range
\x7bmin=0, max=100, default=50, step=10\x7d, mutable only while streaming; for
witnesses. -/
def osW5 : OptionStore :=
  ⟨fun k => if k = 4 then some ⟨20, ⟨0, 100, 50, 10⟩, .onlyWhileStreaming⟩ else none⟩

/-- The system reached from `sStreamW` by `stop` followed by a `close` event;
for witnesses. -/
def wStopW : SensorSys := ⟨⟨.Closed, [], [], false⟩, fun _ => 0, []⟩

/-- A concrete event trace that opens the two profiles `pVid` and `pMot`
together, starts streaming, and delivers frames of streams 5 and 6
interleaved into the shared callback; for witnesses. -/
def trW : List Ev :=
  [.evOpen [pVid, pMot], .evStart 1,
   .evDeliver 5, .evDeliver 6, .evDeliver 5, .evDeliver 6]

/-- The system reached by running `trW` from the fresh system; for
witnesses. -/
def wDelivW : SensorSys :=
  (runEv [pVid, pMot] SensorSys.initSys trW).getD SensorSys.initSys

/-- C1: `start(callback)` succeeds exactly when the session state is `Opened`;
a second `start` without an intervening `stop` fails with `AlreadyStreaming`
(a reportable error, the session is left intact) and exactly the one callback
registered by the first `start` remains active. -/
theorem start_succeeds_iff_opened_and_second_start_already_streaming :
    (∀ (s : Session) (cb : Nat),
      (Session.start s cb).1 = Except.ok () ↔ s.state = SessionState.Opened) ∧
    (∀ (s : Session) (cb1 cb2 : Nat), s.state = SessionState.Opened →
      (Session.start s cb1).1 = Except.ok () ∧
      (Session.start (Session.start s cb1).2 cb2).1 = Except.error ErrKind.AlreadyStreaming ∧
      (Session.start (Session.start s cb1).2 cb2).2.callbacks = [cb1]) := by
  constructor
  · intro s cb
    cases h : s.state <;> simp [Session.start, h]
  · intro s cb1 cb2 h
    simp [Session.start, h]

/-- Witness for C1 at a concrete `Opened` session and callbacks 1, 2. -/
theorem start_succeeds_iff_opened_and_second_start_already_streaming_witness :
    (Session.start sOpenedW 1).1 = Except.ok () ∧
    (Session.start (Session.start sOpenedW 1).2 2).1 = Except.error ErrKind.AlreadyStreaming ∧
    (Session.start (Session.start sOpenedW 1).2 2).2.callbacks = [1] :=
  start_succeeds_iff_opened_and_second_start_already_streaming.2 sOpenedW 1 2 rfl

/-- C2: from a `Closed` session and any profile `p` of the catalog, the
round-trip `open(p) → start(cb) → stop() → close()` succeeds at every step and
returns the session to `Closed` with the exclusive hardware lock released
(indeed to the fresh session), and a subsequent `open` on the same profile
succeeds. -/
theorem roundTrip_returns_to_closed (s : Session) (p : StreamProfile)
    (cat : List StreamProfile) (cb : Nat)
    (hs : s.state = SessionState.Closed) (hp : p ∈ cat) :
    (roundTrip s p cat cb).1 = [Except.ok (), Except.ok (), Except.ok (), Except.ok ()] ∧
    (roundTrip s p cat cb).2.state = SessionState.Closed ∧
    (roundTrip s p cat cb).2.hwLock = false ∧
    (roundTrip s p cat cb).2 = Session.init ∧
    (Session.openOn (roundTrip s p cat cb).2 [p] cat false).1 = Except.ok () := by
  simp [roundTrip, Session.openOn, Session.start, Session.stop, Session.close,
    Session.init, hs, hp]

/-- Witness for C2 at the fresh session and a singleton catalog. -/
theorem roundTrip_returns_to_closed_witness :
    (roundTrip Session.init pVid [pVid] 1).1 =
      [Except.ok (), Except.ok (), Except.ok (), Except.ok ()] ∧
    (roundTrip Session.init pVid [pVid] 1).2.state = SessionState.Closed ∧
    (roundTrip Session.init pVid [pVid] 1).2.hwLock = false ∧
    (roundTrip Session.init pVid [pVid] 1).2 = Session.init ∧
    (Session.openOn (roundTrip Session.init pVid [pVid] 1).2 [pVid] [pVid] false).1 =
      Except.ok () :=
  roundTrip_returns_to_closed Session.init pVid [pVid] 1 rfl (by simp)

/-- C3: `close()` while `Streaming` fails with `InvalidState` and leaves the
session unchanged (still `Streaming`); `close` is valid only from `Opened`. -/
theorem close_while_streaming_fails_invalid_state (s : Session)
    (h : s.state = SessionState.Streaming) :
    Session.close s = (Except.error ErrKind.InvalidState, s) := by
  simp [Session.close, h]

/-- Witness for C3 at a concrete `Streaming` session. -/
theorem close_while_streaming_fails_invalid_state_witness :
    Session.close sStreamW = (Except.error ErrKind.InvalidState, sStreamW) :=
  close_while_streaming_fails_invalid_state sStreamW rfl

/-- C4: for a supported option with range \x7bmin=0, max=100, step=10\x7d,
`set(kind, 5)` fails with `InvalidRange` (5 is misaligned to the step), while
`set(kind, 50)` succeeds (when the mutation policy permits the current state)
and a subsequent `get(kind)` returns 50; in general `set` fails with
`InvalidRange` for every value outside [min, max] or misaligned to step. -/
theorem set_misaligned_invalid_range_and_aligned_roundtrips (os : OptionStore) (k : Nat)
    (i : OptInfo) (st : SessionState) (hf : os.find k = some i)
    (hmin : i.range.min = 0) (hmax : i.range.max = 100) (hstep : i.range.step = 10) :
    (OptionStore.set os k 5 st).1 = Except.error ErrKind.InvalidRange ∧
    (i.policy.allows st = true →
      (OptionStore.set os k 50 st).1 = Except.ok () ∧
      OptionStore.get (OptionStore.set os k 50 st).2 k = Except.ok 50) ∧
    (∀ v : Int, i.range.validValue v = false →
      (OptionStore.set os k v st).1 = Except.error ErrKind.InvalidRange) := by
  have h5 : i.range.validValue 5 = false := by
    unfold OptRange.validValue
    rw [hmin, hmax, hstep]
    decide
  have h50 : i.range.validValue 50 = true := by
    unfold OptRange.validValue
    rw [hmin, hmax, hstep]
    decide
  refine ⟨?_, ?_, ?_⟩
  · simp [OptionStore.set, hf, h5]
  · intro hp
    constructor
    · simp [OptionStore.set, hf, h50, hp]
    · simp [OptionStore.set, OptionStore.get, hf, h50, hp]
  · intro v hv
    simp [OptionStore.set, hf, hv]

/-- Witness for C4 at the concrete store `osW`, option kind 3, session state
`Closed` (policy `anytime`), including the general clause at the
out-of-range value 101. -/
theorem set_misaligned_invalid_range_and_aligned_roundtrips_witness :
    (OptionStore.set osW 3 5 SessionState.Closed).1 = Except.error ErrKind.InvalidRange ∧
    (OptionStore.set osW 3 50 SessionState.Closed).1 = Except.ok () ∧
    OptionStore.get (OptionStore.set osW 3 50 SessionState.Closed).2 3 = Except.ok 50 ∧
    (OptionStore.set osW 3 101 SessionState.Closed).1 = Except.error ErrKind.InvalidRange :=
  ⟨(set_misaligned_invalid_range_and_aligned_roundtrips osW 3 _ _ rfl rfl rfl rfl).1,
   ((set_misaligned_invalid_range_and_aligned_roundtrips osW 3 _ _ rfl rfl rfl rfl).2.1 rfl).1,
   ((set_misaligned_invalid_range_and_aligned_roundtrips osW 3 _ _ rfl rfl rfl rfl).2.1 rfl).2,
   (set_misaligned_invalid_range_and_aligned_roundtrips osW 3 _ _ rfl rfl rfl rfl).2.2 101
     (by decide)⟩

/-- C5: a `set` on a supported option whose mutation is excluded by the
current Session state (the option's queryable policy) fails with
`NotStreamable` atomically: the store is unchanged and a subsequent `get`
returns the same value as before the failed `set`. -/
theorem set_policy_restricted_fails_atomically (os : OptionStore) (k : Nat) (v : Int)
    (st : SessionState) (i : OptInfo) (hf : os.find k = some i)
    (hv : i.range.validValue v = true) (hp : i.policy.allows st = false) :
    (OptionStore.set os k v st).1 = Except.error ErrKind.NotStreamable ∧
    (OptionStore.set os k v st).2 = os ∧
    OptionStore.get (OptionStore.set os k v st).2 k = OptionStore.get os k := by
  refine ⟨?_, ?_, ?_⟩ <;> simp [OptionStore.set, OptionStore.get, hf, hv, hp]

/-- Witness for C5 at the concrete store `osW5` (option kind 4 mutable only
while streaming), attempting `set(4, 50)` while `Closed`. -/
theorem set_policy_restricted_fails_atomically_witness :
    (OptionStore.set osW5 4 50 SessionState.Closed).1 = Except.error ErrKind.NotStreamable ∧
    (OptionStore.set osW5 4 50 SessionState.Closed).2 = osW5 ∧
    OptionStore.get (OptionStore.set osW5 4 50 SessionState.Closed).2 4 =
      OptionStore.get osW5 4 :=
  set_policy_restricted_fails_atomically osW5 4 50 SessionState.Closed _ rfl (by decide) rfl

/-- C8: `devices()` re-issues the enumeration query to the backing driver
layer exactly once per call — the result is exactly what the backend reports
at the current query instant (never a cache) and the query count advances by
one — and, because the backend's device set may change between calls
(hot-plug), two consecutive calls may return different sequences. -/
theorem devices_requeries_backend_each_call :
    (∀ r : Registry,
      (Registry.devices r).1 = r.backend r.queryCount ∧
      (Registry.devices r).2.queryCount = r.queryCount + 1) ∧
    (∃ b : Nat → List DeviceId,
      (Registry.devices (Registry.devices ⟨b, 0⟩).2).1 ≠ (Registry.devices ⟨b, 0⟩).1) := by
  constructor
  · intro r
    exact ⟨rfl, rfl⟩
  · refine ⟨fun n => if n = 0 then [] else [⟨some "cam", none, none⟩], ?_⟩
    simp [Registry.devices]

/-- C9: `as_video()` returns populated video attributes exactly for profiles
whose kind discriminator is `video`; the kind is a pure function of the
tagged variant fixed at the profile's construction, not a runtime cast. -/
theorem asVideo_populated_iff_video_kind :
    ∀ p : StreamProfile,
      (StreamProfile.asVideo p).isSome = true ↔ p.kind = StreamKind.video := by
  intro p
  cases h : p.attrs <;> simp [StreamProfile.asVideo, StreamProfile.kind, h]

/-- Witness for C9 at a concrete video profile. -/
theorem asVideo_populated_iff_video_kind_witness :
    (StreamProfile.asVideo pVid).isSome = true ↔ pVid.kind = StreamKind.video :=
  asVideo_populated_iff_video_kind pVid

/-- C10: on a sensor whose catalog of stream profiles is empty, the driver
program's per-sensor block performs no Session operation at all and leaves
the session exactly as it was (in particular still `Closed`); the
first-profile access sits behind the non-empty guard and the embedding
accesses index 0 only under a proof that the catalog is non-empty. -/
theorem empty_catalog_no_session_ops :
    ∀ s : Session, processSensor [] s = ([], s) := by
  intro s
  simp [processSensor]

/-- `open` leaves the state unchanged (on failure) or moves it to `Opened`. -/
theorem openOn_state_cases (s : Session) (ps : List StreamProfile) (cat : List StreamProfile)
    (b : Bool) :
    (Session.openOn s ps cat b).2.state = s.state ∨
    (Session.openOn s ps cat b).2.state = SessionState.Opened := by
  unfold Session.openOn
  split
  · exact Or.inl rfl
  · split
    · exact Or.inl rfl
    · split
      · exact Or.inl rfl
      · exact Or.inr rfl

/-- After `stop` the session is never `Streaming` (it moves to `Opened` or
was not streaming to begin with). -/
theorem stop_state_not_streaming (s : Session) :
    (Session.stop s).2.state ≠ SessionState.Streaming := by
  unfold Session.stop
  split
  · simp
  · assumption

/-- `close` never moves a non-streaming session into `Streaming`. -/
theorem close_state_preserves_not_streaming (s : Session)
    (h : s.state ≠ SessionState.Streaming) :
    (Session.close s).2.state ≠ SessionState.Streaming := by
  unfold Session.close
  split
  · simp
  · exact h

/-- While the session is not `Streaming`, any enabled event other than a
`start` delivers no frame and leaves the session not `Streaming`. -/
theorem stepEv_no_start_preserves (cat : List StreamProfile) (w w' : SensorSys) (e : Ev)
    (hns : w.sess.state ≠ SessionState.Streaming)
    (hne : ∀ cb, e ≠ Ev.evStart cb)
    (hstep : stepEv cat w e = some w') :
    w'.delivered = w.delivered ∧ w'.sess.state ≠ SessionState.Streaming := by
  cases e with
  | evOpen ps =>
    simp only [stepEv, Option.some.injEq] at hstep
    subst hstep
    refine ⟨rfl, ?_⟩
    rcases openOn_state_cases w.sess ps cat false with h | h
    · simpa [h] using hns
    · simp [h]
  | evStart cb => exact absurd rfl (hne cb)
  | evStop =>
    simp only [stepEv, Option.some.injEq] at hstep
    subst hstep
    exact ⟨rfl, stop_state_not_streaming w.sess⟩
  | evClose =>
    simp only [stepEv, Option.some.injEq] at hstep
    subst hstep
    exact ⟨rfl, close_state_preserves_not_streaming w.sess hns⟩
  | evDeliver sid =>
    simp only [stepEv] at hstep
    split at hstep
    · next hcond => exact absurd hcond.1 hns
    · exact Option.noConfusion hstep

/-- A run containing no `start` event from a non-streaming session delivers
no frame. -/
theorem runEv_no_start_no_new_delivery (cat : List StreamProfile) (tr : List Ev) :
    ∀ w w' : SensorSys, w.sess.state ≠ SessionState.Streaming →
      (∀ cb, Ev.evStart cb ∉ tr) → runEv cat w tr = some w' →
      w'.delivered = w.delivered := by
  induction tr with
  | nil =>
    intro w w' _ _ hr
    simp only [runEv, Option.some.injEq] at hr
    rw [← hr]
  | cons e es ih =>
    intro w w' hns hno hr
    simp only [runEv] at hr
    cases hstep : stepEv cat w e with
    | none =>
      rw [hstep] at hr
      exact Option.noConfusion hr
    | some w1 =>
      rw [hstep] at hr
      have hne : ∀ cb, e ≠ Ev.evStart cb := by
        intro cb hcb
        exact hno cb (by rw [hcb]; exact List.mem_cons_self _ _)
      obtain ⟨hd, hs1⟩ := stepEv_no_start_preserves cat w w1 e hns hne hstep
      have hno' : ∀ cb, Ev.evStart cb ∉ es := fun cb hm => hno cb (List.mem_cons_of_mem _ hm)
      rw [ih w1 w' hs1 hno' hr, hd]

/-- C6: `stop()` on a `Streaming` session succeeds and transitions the
session to `Opened`, and after `stop` returns no further callback invocation
begins for that sensor: along any continuation of the system that contains no
new `start`, the list of delivered frames never grows. -/
theorem stop_transitions_to_opened_and_halts_delivery (s : Session)
    (h : s.state = SessionState.Streaming) :
    (Session.stop s).1 = Except.ok () ∧
    (Session.stop s).2.state = SessionState.Opened ∧
    ∀ (cat : List StreamProfile) (c : Nat → Nat) (d : List (Nat × Nat)) (tr : List Ev)
      (w' : SensorSys), (∀ cb, Ev.evStart cb ∉ tr) →
      runEv cat ⟨(Session.stop s).2, c, d⟩ tr = some w' → w'.delivered = d := by
  refine ⟨by simp [Session.stop, h], by simp [Session.stop, h], ?_⟩
  intro cat c d tr w' hno hr
  exact runEv_no_start_no_new_delivery cat tr ⟨(Session.stop s).2, c, d⟩ w'
    (stop_state_not_streaming s) hno hr

/-- Witness for C6: a concrete streaming session is stopped, a `close`
event then runs, and nothing more is delivered. -/
theorem stop_transitions_to_opened_and_halts_delivery_witness :
    (Session.stop sStreamW).1 = Except.ok () ∧
    (Session.stop sStreamW).2.state = SessionState.Opened ∧
    wStopW.delivered = [] :=
  ⟨(stop_transitions_to_opened_and_halts_delivery sStreamW rfl).1,
   (stop_transitions_to_opened_and_halts_delivery sStreamW rfl).2.1,
   (stop_transitions_to_opened_and_halts_delivery sStreamW rfl).2.2 [] (fun _ => 0) []
     [Ev.evClose] wStopW (by intro cb hm; simp at hm) rfl⟩

/-- Appending a frame of the same stream appends its sequence number. -/
theorem seqsOf_append_match (sid : Nat) (l : List (Nat × Nat)) (f : Nat × Nat)
    (h : f.1 = sid) :
    seqsOf sid (l ++ [f]) = seqsOf sid l ++ [f.2] := by
  simp [seqsOf, List.filter_append, h]

/-- Appending a frame of a different stream leaves a stream's sequence
numbers unchanged. -/
theorem seqsOf_append_other (sid : Nat) (l : List (Nat × Nat)) (f : Nat × Nat)
    (h : f.1 ≠ sid) :
    seqsOf sid (l ++ [f]) = seqsOf sid l := by
  simp [seqsOf, List.filter_append, h]

/-- Every enabled event preserves the sequence-number invariant. -/
theorem stepEv_seqInv (cat : List StreamProfile) (w w' : SensorSys) (e : Ev)
    (hw : SeqInv w) (hstep : stepEv cat w e = some w') : SeqInv w' := by
  cases e with
  | evOpen ps =>
    simp only [stepEv, Option.some.injEq] at hstep
    subst hstep
    exact hw
  | evStart cb =>
    simp only [stepEv, Option.some.injEq] at hstep
    subst hstep
    exact hw
  | evStop =>
    simp only [stepEv, Option.some.injEq] at hstep
    subst hstep
    exact hw
  | evClose =>
    simp only [stepEv, Option.some.injEq] at hstep
    subst hstep
    exact hw
  | evDeliver sid0 =>
    simp only [stepEv] at hstep
    split at hstep
    · simp only [Option.some.injEq] at hstep
      subst hstep
      intro sid
      by_cases hs : sid = sid0
      · subst hs
        rw [seqsOf_append_match sid w.delivered (sid, w.counters sid) rfl]
        simp [hw sid, List.range_succ]
      · rw [seqsOf_append_other sid w.delivered (sid0, w.counters sid0) (Ne.symm hs)]
        simp [hs, hw sid]
    · exact Option.noConfusion hstep

/-- A run from a system satisfying the sequence-number invariant ends in a
system satisfying it. -/
theorem runEv_seqInv (cat : List StreamProfile) (tr : List Ev) :
    ∀ w w' : SensorSys, SeqInv w → runEv cat w tr = some w' → SeqInv w' := by
  induction tr with
  | nil =>
    intro w w' hw hr
    simp only [runEv, Option.some.injEq] at hr
    rwa [← hr]
  | cons e es ih =>
    intro w w' hw hr
    simp only [runEv] at hr
    cases hstep : stepEv cat w e with
    | none =>
      rw [hstep] at hr
      exact Option.noConfusion hr
    | some w1 =>
      rw [hstep] at hr
      exact ih w1 w' (stepEv_seqInv cat w w1 e hw hstep) hr

/-- C7: in every completed run of the streaming system from the fresh state —
including runs that open two profiles of one sensor and interleave their
deliveries into the shared callback arbitrarily — the sequence numbers of the
frames actually delivered for any one stream are gap-free (exactly
`0, 1, …, k-1` in order) and strictly increasing; the step relation places no
constraint on cross-stream interleaving. -/
theorem delivered_seqs_strictly_increasing_gapfree (cat : List StreamProfile)
    (tr : List Ev) (w' : SensorSys)
    (h : runEv cat SensorSys.initSys tr = some w') (sid : Nat) :
    seqsOf sid w'.delivered = List.range ((seqsOf sid w'.delivered).length) ∧
    List.Pairwise (· < ·) (seqsOf sid w'.delivered) := by
  have hinv : SeqInv w' := by
    refine runEv_seqInv cat tr SensorSys.initSys w' ?_ h
    intro sid0
    simp [seqsOf, SensorSys.initSys]
  have hq := hinv sid
  constructor
  · rw [hq]
    simp
  · rw [hq]
    exact List.pairwise_lt_range _

/-- Witness for C7: the concrete trace `trW` opens the two profiles `pVid`
and `pMot` together and interleaves their deliveries into the shared
callback; each of the two streams still receives sequence numbers 0 and 1 in
order, and the delivered list shows the cross-stream interleaving. -/
theorem delivered_seqs_strictly_increasing_gapfree_witness :
    (seqsOf 5 wDelivW.delivered = List.range ((seqsOf 5 wDelivW.delivered).length) ∧
      List.Pairwise (· < ·) (seqsOf 5 wDelivW.delivered)) ∧
    (seqsOf 6 wDelivW.delivered = List.range ((seqsOf 6 wDelivW.delivered).length) ∧
      List.Pairwise (· < ·) (seqsOf 6 wDelivW.delivered)) ∧
    wDelivW.delivered = [(5, 0), (6, 0), (5, 1), (6, 1)] ∧
    seqsOf 5 wDelivW.delivered = [0, 1] ∧ seqsOf 6 wDelivW.delivered = [0, 1] :=
  ⟨delivered_seqs_strictly_increasing_gapfree [pVid, pMot] trW wDelivW rfl 5,
   delivered_seqs_strictly_increasing_gapfree [pVid, pMot] trW wDelivW rfl 6,
   rfl, rfl, rfl⟩

end SensorCore
